import Mathlib

/-!
Verification of the attribution and lifetime-value analytics engine of the
Netflix content ROI project.

The pipeline under study:
  attribution.assign_last_touch          (windowed last-touch attribution)
  analysis_and_plots.compute_ltv         (calendar-month lifetime value)
  analysis_and_plots.main, lines 63-114  (per-show and per-genre rollups)
  sensitivity_analysis.main              (attribution-window sweep)

Modelling conventions:
* A pandas Timestamp is modelled by Date: an absolute day index (used for
  ordering and day arithmetic) together with its calendar year and month
  (used by the calendar-month difference in compute_ltv).  Nothing in the
  verified code relates the two views, so no coherence invariant is needed.
* pandas float64 columns are modelled by exact rationals inside FVal, an
  IEEE-754-style value domain with signed infinities and NaN, so that the
  behaviour of division by zero is captured faithfully.
* DataFrames are lists of records.  The groupby/merge pipeline of
  assign_last_touch is modelled per user row; this is faithful for ledgers
  whose user ids are unique, which is an invariant of the data model (the
  generator emits user_00001 .. user_10000 without repetition).  Similarly
  the catalog joins assume unique show ids.
* pandas groupby sorts group keys; the model keeps keys in first-appearance
  order instead, because the lexicographic String order does not reduce in
  the kernel.  No verified property depends on the row order of the
  aggregate tables.
-/

/-- Calendar timestamp: absolute day index plus calendar year and month. -/
structure Date where
  days : Int
  year : Int
  month : Int
deriving DecidableEq

/-- IEEE-754-style value of a pandas float64 cell: a finite (exact rational)
number, a signed infinity, or NaN. -/
inductive FVal where
  | num (q : Rat)
  | inf
  | ninf
  | nan
deriving DecidableEq

/-- Float subtraction on FVal, mirroring IEEE-754 semantics for the cases the
pipeline exercises (finite minus finite, and NaN propagation). -/
def fsub : FVal → FVal → FVal
  | .nan, _ => .nan
  | _, .nan => .nan
  | .num a, .num b => .num (a - b)
  | .inf, .inf => .nan
  | .ninf, .ninf => .nan
  | .inf, _ => .inf
  | .ninf, _ => .ninf
  | .num _, .inf => .ninf
  | .num _, .ninf => .inf

/-- Float division on FVal, mirroring IEEE-754: a positive finite number
divided by zero is +infinity, a negative one is -infinity, zero by zero is
NaN, and NaN propagates.  numpy emits exactly these values (no exception)
for float Series division. -/
def fdiv : FVal → FVal → FVal
  | .nan, _ => .nan
  | _, .nan => .nan
  | .num a, .num b =>
      if b ≠ 0 then .num (a / b)
      else if 0 < a then .inf
      else if a < 0 then .ninf
      else .nan
  | .num _, .inf => .num 0
  | .num _, .ninf => .num 0
  | .inf, .num b => if 0 ≤ b then .inf else .ninf
  | .ninf, .num b => if 0 ≤ b then .ninf else .inf
  | .inf, _ => .nan
  | .ninf, _ => .nan

/-- A missing float cell (NaN) versus a present one. -/
def optF : Option Rat → FVal
  | some q => .num q
  | none => .nan

/-- One row of netflix_content.csv.  release_date is the absolute day index
of the release (only day-level ordering and day arithmetic are applied to
it in the source). -/
structure ContentRow where
  show_id : String
  title : String
  genre : String
  release_date : Int
  production_cost : Rat
deriving DecidableEq

/-- One row of user_base.csv / user_attribution_enriched.csv. -/
structure UserRow where
  user_id : String
  sign_up_date : Date
  last_active_date : Date
  monthly_revenue : Rat
  attributed_show_id : Option String
deriving DecidableEq

/-- A user row after compute_ltv added the lifetime_months and ltv columns. -/
structure LtvRow where
  user_id : String
  sign_up_date : Date
  last_active_date : Date
  monthly_revenue : Rat
  attributed_show_id : Option String
  lifetime_months : Int
  ltv : Rat
deriving DecidableEq

/-! ## Attribution resolver (attribution.py, assign_last_touch) -/

/-- Eligibility filter of attribution.py line 47: the signup falls in
[release_date, release_date + window_days]. -/
def eligibleB (w : Int) (u : UserRow) (c : ContentRow) : Bool :=
  decide (c.release_date ≤ u.sign_up_date.days) &&
    decide (u.sign_up_date.days ≤ c.release_date + w)

/-- Ordering of content rows by release date, the sort key of
attribution.py lines 28 and 54. -/
def relLE (a b : ContentRow) : Prop := a.release_date ≤ b.release_date

instance : DecidableRel relLE :=
  fun a b => inferInstanceAs (Decidable (a.release_date ≤ b.release_date))

instance : IsTotal ContentRow relLE := ⟨fun a b => Int.le_total a.release_date b.release_date⟩

instance : IsTrans ContentRow relLE := ⟨fun _ _ _ => Int.le_trans⟩

/-- content_small of attribution.py line 28: the catalog sorted by
release_date.  pandas uses an unstable quicksort for a single-column sort,
so the relative order of rows sharing a release_date is implementation
defined; the model uses a stable insertion sort, which is one admissible
outcome.  No theorem below depends on the tie order of this sort. -/
def sortByRelease (content : List ContentRow) : List ContentRow :=
  List.insertionSort relLE content

/-- The rows of the filtered cross join (attribution.py lines 40-48) that
belong to one user: the content rows whose window contains the signup, in
content_small order. -/
def userMatches (content_small : List ContentRow) (w : Int) (u : UserRow) : List ContentRow :=
  content_small.filter (eligibleB w u)

/-- The last-touch winner for one user: attribution.py lines 54-56 sort the
merged rows by (user_id, release_date) with the stable pandas lexsort and
take the last row of each user group, i.e. per user the last element of the
stable sort by release_date of that user's match rows. -/
def lastTouchFor (content_small : List ContentRow) (w : Int) (u : UserRow) : Option ContentRow :=
  (List.insertionSort relLE (userMatches content_small w u)).getLast?

/-- Overwrite the attributed_show_id column of one user row. -/
def setAttrib (u : UserRow) (a : Option String) : UserRow :=
  { u with attributed_show_id := a }

/-- The coalesce step of attribution.py lines 63-71 for one user row: a
last-touch winner overwrites the attribution, otherwise (left merge gave
NaN) the existing value is kept. -/
def applyLastTouch (content_small : List ContentRow) (w : Int) (u : UserRow) : UserRow :=
  match lastTouchFor content_small w u with
  | some c => setAttrib u (some c.show_id)
  | none => u

/-- assign_last_touch of attribution.py.  When the filtered cross join is
empty (no user has any eligible content row, lines 49-52) the whole
attributed_show_id column is assigned None; otherwise each user row gets
its coalesced attribution. -/
def assign_last_touch (content : List ContentRow) (users : List UserRow)
    (window_days : Int) : List UserRow :=
  if users.all (fun u => (userMatches (sortByRelease content) window_days u).isEmpty) then
    users.map (fun u => setAttrib u none)
  else
    users.map (fun u => applyLastTouch (sortByRelease content) window_days u)

/-! ## LTV calculator (analysis_and_plots.py, compute_ltv) -/

/-- Calendar-month difference of analysis_and_plots.py line 41. -/
def monthsBetween (a b : Date) : Int :=
  (b.year - a.year) * 12 + (b.month - a.month)

/-- One row of compute_ltv (analysis_and_plots.py lines 38-47):
lifetime_months is the calendar-month difference floored to at least 1,
ltv is monthly_revenue times lifetime_months. -/
def mkLtvRow (u : UserRow) : LtvRow :=
  { user_id := u.user_id
    sign_up_date := u.sign_up_date
    last_active_date := u.last_active_date
    monthly_revenue := u.monthly_revenue
    attributed_show_id := u.attributed_show_id
    lifetime_months := max 1 (monthsBetween u.sign_up_date u.last_active_date)
    ltv := u.monthly_revenue * ((max 1 (monthsBetween u.sign_up_date u.last_active_date) : Int) : Rat) }

/-- compute_ltv of analysis_and_plots.py.  It is total: no record is
rejected, whatever the relation between signup and last-active dates. -/
def compute_ltv (users : List UserRow) : List LtvRow :=
  users.map mkLtvRow

/-! ## Financial aggregator (analysis_and_plots.py, main, lines 63-114) -/

/-- One row of the show_rev table (analysis_and_plots.py lines 76-81). -/
structure ShowRevRow where
  attributed_show_id : String
  attributed_users : Nat
  total_revenue : Rat
  title : Option String
  genre : Option String
  production_cost : Option Rat
  roi : FVal
deriving DecidableEq

/-- The distinct non-null attribution keys of the ledger: groupby on
attributed_show_id drops null keys.  (pandas also sorts the keys; the model
keeps first-appearance order, on which no verified property depends.) -/
def showKeys (users : List LtvRow) : List String :=
  (users.filterMap (fun u => u.attributed_show_id)).dedup

/-- The group of users attributed to show k. -/
def showGroup (users : List LtvRow) (k : String) : List LtvRow :=
  users.filter (fun u => u.attributed_show_id == some k)

/-- One aggregated show row: user count and ltv sum over the group
(lines 76-79), then the left merge with the catalog (line 80) and the roi
column (line 81) computed with float semantics, so a missing catalog row
yields NaN and a zero cost yields a signed infinity. -/
def mkShowRevRow (users : List LtvRow) (content : List ContentRow) (k : String) : ShowRevRow :=
  let grp := showGroup users k
  let rev := (grp.map (fun u => u.ltv)).sum
  let found := content.find? (fun c => c.show_id == k)
  let cost := found.map (fun c => c.production_cost)
  { attributed_show_id := k
    attributed_users := grp.length
    total_revenue := rev
    title := found.map (fun c => c.title)
    genre := found.map (fun c => c.genre)
    production_cost := cost
    roi := fdiv (fsub (.num rev) (optF cost)) (optF cost) }

/-- The show_rev table: one row per distinct non-null attribution key. -/
def showRev (users : List LtvRow) (content : List ContentRow) : List ShowRevRow :=
  (showKeys users).map (mkShowRevRow users content)

/-- One row of the genre_fin table (analysis_and_plots.py lines 105-114). -/
structure GenreFinRow where
  genre : String
  total_revenue : Rat
  total_prod_cost : Rat
  total_attributed_users : Nat
  cac_per_user : FVal
  ltv_per_user : FVal
  ltv_to_cac : FVal
deriving DecidableEq

/-- The distinct non-null genres of the show_rev table: groupby on genre
drops the NaN genre of unresolved show references. -/
def genreKeys (sr : List ShowRevRow) : List String :=
  (sr.filterMap (fun r => r.genre)).dedup

/-- The show_rev rows of one genre. -/
def genreGroup (sr : List ShowRevRow) (g : String) : List ShowRevRow :=
  sr.filter (fun r => r.genre == some g)

/-- One aggregated genre row (lines 105-114): sums over the genre group
(the pandas sum skips missing production costs), then the per-user ratios
with the replace(0, NaN) guard on the user count, and their quotient. -/
def mkGenreFinRow (sr : List ShowRevRow) (g : String) : GenreFinRow :=
  let grp := genreGroup sr g
  let rev := (grp.map (fun r => r.total_revenue)).sum
  let cost := (grp.filterMap (fun r => r.production_cost)).sum
  let n := (grp.map (fun r => r.attributed_users)).sum
  let nGuard : FVal := if n = 0 then .nan else .num ((n : Nat) : Rat)
  let cac := fdiv (.num cost) nGuard
  let ltvpu := fdiv (.num rev) nGuard
  { genre := g
    total_revenue := rev
    total_prod_cost := cost
    total_attributed_users := n
    cac_per_user := cac
    ltv_per_user := ltvpu
    ltv_to_cac := fdiv ltvpu cac }

/-- The genre_fin table: one row per distinct non-null genre. -/
def genreFin (sr : List ShowRevRow) : List GenreFinRow :=
  (genreKeys sr).map (mkGenreFinRow sr)

/-! ## Sensitivity sweep (sensitivity_analysis.py) -/

/-- compute_genre_metrics of sensitivity_analysis.py: the same ltv formula
and the same two-level aggregation as analysis_and_plots.py, inlined there. -/
def compute_genre_metrics (users : List UserRow) (content : List ContentRow) : List GenreFinRow :=
  genreFin (showRev (compute_ltv users) content)

/-- The window list of sensitivity_analysis.py line 40. -/
def sweepWindows : List Int := [3, 7, 14]

/-- The two genres charted by the sweep. -/
def sweepGenres : List String := ["Sci-Fi", "Comedy"]

/-- One output row of the sweep. -/
structure SweepRow where
  window : Int
  genre : String
  ltv_to_cac : FVal
deriving DecidableEq

/-- Row lookup of sensitivity_analysis.py lines 45-49: the genre row if
present, NaN otherwise. -/
def ltvCacFor (gf : List GenreFinRow) (g : String) : FVal :=
  match gf.find? (fun r => r.genre == g) with
  | some r => r.ltv_to_cac
  | none => .nan

/-- One sweep point: attribution is re-run on the original ledger with the
single window value w (the source passes users.copy() each iteration), then
the ltv and aggregation stages run from scratch. -/
def sweepRow (content : List ContentRow) (users : List UserRow) (w : Int) (g : String) : SweepRow :=
  { window := w
    genre := g
    ltv_to_cac := ltvCacFor (compute_genre_metrics (assign_last_touch content users w) content) g }

/-- The sweep output: the loop of sensitivity_analysis.py lines 42-52,
windows outermost in list order, the two genres inside. -/
def sensitivity_rows (content : List ContentRow) (users : List UserRow) : List SweepRow :=
  sweepWindows.flatMap (fun w => sweepGenres.map (sweepRow content users w))

/-! ## Concrete fixtures -/

/-- The show id of the end-to-end example. -/
def idS1 : String := "S1"

/-- A show id absent from every fixture catalog. -/
def idS9 : String := "S9"

/-- The prior attribution id of the non-destructive-fallback fixture. -/
def priorId : String := "show_0001"

/-- 2024-01-03 (absolute day 19725). -/
def dJan3 : Date := { days := 19725, year := 2024, month := 1 }

/-- The catalog row of the end-to-end example: released 2024-01-01
(absolute day 19723), cost 1000, genre Drama. -/
def s1C9 : ContentRow :=
  { show_id := idS1, title := "S1 Title", genre := "Drama",
    release_date := 19723, production_cost := 1000 }

/-- The ledger row of the end-to-end example: signup and last-active
2024-01-03, revenue 10, no prior attribution. -/
def u1C9 : UserRow :=
  { user_id := "U1", sign_up_date := dJan3, last_active_date := dJan3,
    monthly_revenue := 10, attributed_show_id := none }

/-- A show released on day 100, far from the fallback user's signup. -/
def cFar : ContentRow :=
  { show_id := "show_0042", title := "Far Away", genre := "Drama",
    release_date := 100, production_cost := 500 }

/-- A user with a prior attribution whose signup (day 0) is eligible for no
show of the fixture catalog. -/
def uPrior : UserRow :=
  { user_id := "user_00001", sign_up_date := { days := 0, year := 2020, month := 1 },
    last_active_date := { days := 30, year := 2020, month := 2 },
    monthly_revenue := 12, attributed_show_id := some priorId }

/-- A malformed user record: last_active_date (2024-01) is before
sign_up_date (2024-05). -/
def uMal : UserRow :=
  { user_id := "user_00002", sign_up_date := { days := 19857, year := 2024, month := 5 },
    last_active_date := { days := 19737, year := 2024, month := 1 },
    monthly_revenue := 12, attributed_show_id := none }

/-- A catalog row with production cost zero. -/
def cZero : ContentRow :=
  { show_id := idS1, title := "Zero Cost", genre := "Drama",
    release_date := 19723, production_cost := 0 }

/-- A user attributed to the zero-cost show, revenue 10. -/
def uC3 : UserRow :=
  { user_id := "U1", sign_up_date := dJan3, last_active_date := dJan3,
    monthly_revenue := 10, attributed_show_id := some idS1 }

/-- A catalog row for the unresolved-reference fixture. -/
def cC8 : ContentRow :=
  { show_id := idS1, title := "Resolved", genre := "Drama",
    release_date := 19723, production_cost := 1000 }

/-- A user whose attribution id matches no catalog row. -/
def uDang : UserRow :=
  { user_id := "U2", sign_up_date := dJan3, last_active_date := dJan3,
    monthly_revenue := 10, attributed_show_id := some idS9 }

/-- First eligible show of the last-touch witness, released on day 0. -/
def cA : ContentRow :=
  { show_id := "A", title := "Early", genre := "Drama",
    release_date := 0, production_cost := 5 }

/-- Second eligible show of the last-touch witness, released on day 2. -/
def cB : ContentRow :=
  { show_id := "B", title := "Late", genre := "Drama",
    release_date := 2, production_cost := 5 }

/-- A user signing up on day 3, eligible for both witness shows. -/
def uW1 : UserRow :=
  { user_id := "u1", sign_up_date := { days := 3, year := 2024, month := 1 },
    last_active_date := { days := 3, year := 2024, month := 1 },
    monthly_revenue := 10, attributed_show_id := none }

/-- A show released on day 0 for the monotonicity witness. -/
def cW6 : ContentRow :=
  { show_id := "W", title := "Window", genre := "Drama",
    release_date := 0, production_cost := 5 }

/-- A user signing up on day 2 for the monotonicity witness. -/
def uW6 : UserRow :=
  { user_id := "u6", sign_up_date := { days := 2, year := 2024, month := 1 },
    last_active_date := { days := 2, year := 2024, month := 1 },
    monthly_revenue := 10, attributed_show_id := none }

/-! ## Helper lemmas -/

/-- The last element of a list, when present, is a member. -/
theorem mem_of_getLast?_eq {α : Type} : ∀ (l : List α) (y : α), l.getLast? = some y → y ∈ l
  | [], _, hy => by simp at hy
  | [a], y, hy => by
      simp only [List.getLast?_singleton, Option.some.injEq] at hy
      simp [hy]
  | a :: b :: t, y, hy => by
      rw [List.getLast?_cons_cons] at hy
      exact List.mem_cons_of_mem a (mem_of_getLast?_eq (b :: t) y hy)

/-- In a sorted list every member is the last element or relates to it. -/
theorem sorted_rel_getLast? {α : Type} {r : α → α → Prop} :
    ∀ (l : List α), l.Sorted r → ∀ x ∈ l, ∀ y, l.getLast? = some y → x = y ∨ r x y
  | [], _, x, hx, _, _ => absurd hx (List.not_mem_nil x)
  | [a], _, x, hx, y, hy => by
      simp only [List.mem_singleton] at hx
      simp only [List.getLast?_singleton, Option.some.injEq] at hy
      exact Or.inl (hx.trans hy)
  | a :: b :: t, hs, x, hx, y, hy => by
      rw [List.getLast?_cons_cons] at hy
      rcases List.mem_cons.mp hx with rfl | hxt
      · exact Or.inr ((List.sorted_cons.mp hs).1 y (mem_of_getLast?_eq (b :: t) y hy))
      · exact sorted_rel_getLast? (b :: t) (List.sorted_cons.mp hs).2 x hxt y hy

/-- If exactly one element of a list attains the maximal release date, it is
the last element of the sorted list, whatever the input order. -/
theorem getLast?_sort_eq_of_unique_max (m : List ContentRow) (c : ContentRow)
    (hc : c ∈ m) (hmax : ∀ x ∈ m, x ≠ c → x.release_date < c.release_date) :
    (List.insertionSort relLE m).getLast? = some c := by
  have hcs : c ∈ List.insertionSort relLE m := (List.mem_insertionSort relLE).mpr hc
  have hne : List.insertionSort relLE m ≠ [] := List.ne_nil_of_mem hcs
  obtain ⟨y, hy⟩ := Option.isSome_iff_exists.mp (List.getLast?_isSome.mpr hne)
  have hym : y ∈ m := (List.mem_insertionSort relLE).mp (mem_of_getLast?_eq _ y hy)
  rcases sorted_rel_getLast? _ (List.sorted_insertionSort relLE m) c hcs y hy with h | h
  · rw [hy, h]
  · by_cases hyc : y = c
    · rw [hy, hyc]
    · have h1 := hmax y hym hyc
      have h2 : c.release_date ≤ y.release_date := h
      omega

/-- Widening the window preserves eligibility. -/
theorem eligible_mono {w w' : Int} (hw : w ≤ w') (u : UserRow) (c : ContentRow)
    (h : eligibleB w u c = true) : eligibleB w' u c = true := by
  simp only [eligibleB, Bool.and_eq_true, decide_eq_true_eq] at h ⊢
  omega

/-- Widening the window preserves a nonempty match list. -/
theorem userMatches_mono {w w' : Int} (hw : w ≤ w') (cs : List ContentRow) (u : UserRow)
    (h : userMatches cs w u ≠ []) : userMatches cs w' u ≠ [] := by
  obtain ⟨x, hx⟩ := List.exists_mem_of_ne_nil _ h
  have hx' := List.mem_filter.mp hx
  exact List.ne_nil_of_mem (List.mem_filter.mpr ⟨hx'.1, eligible_mono hw u x hx'.2⟩)

/-- Finite by finite nonzero division. -/
theorem fdiv_num_num_of_ne {a b : Rat} (hb : b ≠ 0) :
    fdiv (.num a) (.num b) = .num (a / b) := by
  simp [fdiv, hb]

/-- A positive finite number divided by zero is +infinity. -/
theorem fdiv_num_pos_zero {a : Rat} (ha : 0 < a) :
    fdiv (.num a) (.num 0) = .inf := by
  simp [fdiv, ha]

/-! ## Claim theorems -/

/-- Claim C2 (code bug): the claim asserts the non-destructive fallback, in
particular when no user in the ledger has any eligible item.  The code
violates it there: the empty-merge branch of attribution.py lines 49-52
assigns None to the whole attributed_show_id column, erasing the prior
attribution of uPrior even though the coalesce logic of lines 63-71 (whose
comment says to keep the existing value) would have preserved it. -/
theorem C2_empty_match_clears_prior :
    uPrior.attributed_show_id = some priorId
    ∧ assign_last_touch [cFar] [uPrior] 7 = [setAttrib uPrior none] := by
  constructor
  · rfl
  · decide

/-- Claim C7 (counterexample): a record with last_active_date before
sign_up_date is not rejected anywhere; compute_ltv processes it and
produces lifetime_months 1 and ltv 12. -/
theorem C7_counterexample :
    uMal.last_active_date.days < uMal.sign_up_date.days
    ∧ (compute_ltv [uMal]).map (fun r => (r.user_id, r.lifetime_months, r.ltv))
      = [(uMal.user_id, 1, 12)] := by
  constructor
  · decide
  · norm_num [compute_ltv, mkLtvRow, uMal, monthsBetween]

/-- Claim C7 (amended): no validation happens at the load boundary; a record
violating a structural invariant (last_active before signup, or negative
revenue) is processed like any other: compute_ltv yields exactly one output
row for it, with lifetime_months floored to at least 1 and
ltv = monthly_revenue times lifetime_months. -/
theorem C7_amended (u : UserRow)
    (hmal : u.last_active_date.days < u.sign_up_date.days ∨ u.monthly_revenue < 0) :
    ∃ row, compute_ltv [u] = [row]
      ∧ row.user_id = u.user_id
      ∧ 1 ≤ row.lifetime_months
      ∧ row.ltv = u.monthly_revenue * ((row.lifetime_months : Int) : Rat) :=
  ⟨mkLtvRow u, rfl, rfl, le_max_left 1 _, rfl⟩

/-- Witness for C7_amended at the malformed record uMal. -/
theorem C7_amended_witness :
    uMal.last_active_date.days < uMal.sign_up_date.days
    ∧ ∃ row, compute_ltv [uMal] = [row]
      ∧ row.user_id = uMal.user_id
      ∧ 1 ≤ row.lifetime_months
      ∧ row.ltv = uMal.monthly_revenue * ((row.lifetime_months : Int) : Rat) :=
  ⟨by decide, C7_amended uMal (Or.inl (by decide))⟩

/-- Claim C4: compute_ltv sets lifetime_months to the calendar-month
difference of the signup and last-active dates floored to at least 1, and
ltv to monthly_revenue times lifetime_months; a user whose last-active date
equals the signup date gets lifetime_months exactly 1. -/
theorem C4_ltv (users : List UserRow) (i : Nat) (row : LtvRow)
    (h : (compute_ltv users)[i]? = some row) :
    ∃ u, users[i]? = some u
      ∧ row.lifetime_months = max 1 (monthsBetween u.sign_up_date u.last_active_date)
      ∧ row.ltv = u.monthly_revenue * ((row.lifetime_months : Int) : Rat)
      ∧ (u.last_active_date = u.sign_up_date → row.lifetime_months = 1) := by
  rw [compute_ltv, List.getElem?_map] at h
  rcases hu : users[i]? with _ | u
  · rw [hu] at h; simp at h
  · rw [hu] at h
    simp only [Option.map_some', Option.some.injEq] at h
    refine ⟨u, rfl, ?_, ?_, ?_⟩
    · rw [← h]; rfl
    · rw [← h]; rfl
    · intro hsame
      rw [← h]
      simp only [mkLtvRow, monthsBetween, hsame]
      omega

/-- Witness for C4_ltv at the same-day user u1C9. -/
theorem C4_ltv_witness :
    ∃ u, [u1C9][0]? = some u
      ∧ (mkLtvRow u1C9).lifetime_months = max 1 (monthsBetween u.sign_up_date u.last_active_date)
      ∧ (mkLtvRow u1C9).ltv = u.monthly_revenue * (((mkLtvRow u1C9).lifetime_months : Int) : Rat)
      ∧ (u.last_active_date = u.sign_up_date → (mkLtvRow u1C9).lifetime_months = 1) :=
  C4_ltv [u1C9] 0 (mkLtvRow u1C9) rfl

/-- Claim C1: for a user whose eligible items are exactly two shows with
release dates R1 < R2 (both at or before the signup, with the signup inside
both windows — that is what membership in the eligibility filter states),
assign_last_touch attributes the show released at R2, whatever the input
order of the catalog rows: the hypothesis constrains the eligibility filter
of the catalog only up to permutation. -/
theorem C1_last_touch (content : List ContentRow) (users : List UserRow) (w : Int)
    (u : UserRow) (i1 i2 : ContentRow) (i : Nat)
    (hu : users[i]? = some u)
    (hfil : (content.filter (eligibleB w u)).Perm [i1, i2])
    (hlt : i1.release_date < i2.release_date) :
    (assign_last_touch content users w)[i]? = some (setAttrib u (some i2.show_id)) := by
  have hperm : (userMatches (sortByRelease content) w u).Perm [i1, i2] :=
    ((List.perm_insertionSort relLE content).filter (eligibleB w u)).trans hfil
  have hc2 : i2 ∈ userMatches (sortByRelease content) w u := by
    rw [hperm.mem_iff]; simp
  have hmax : ∀ x ∈ userMatches (sortByRelease content) w u,
      x ≠ i2 → x.release_date < i2.release_date := by
    intro x hx hne
    have hx12 : x ∈ [i1, i2] := hperm.mem_iff.mp hx
    rcases List.mem_cons.mp hx12 with rfl | hx2
    · exact hlt
    · rw [List.mem_singleton] at hx2
      exact absurd hx2 hne
  have hlast := getLast?_sort_eq_of_unique_max _ i2 hc2 hmax
  have hbranch :
      ¬ (users.all (fun v => (userMatches (sortByRelease content) w v).isEmpty) = true) := by
    intro hall
    have humem : u ∈ users := List.getElem?_mem hu
    have hempty := List.all_eq_true.mp hall u humem
    rw [List.isEmpty_iff] at hempty
    rw [hempty] at hc2
    exact List.not_mem_nil i2 hc2
  rw [assign_last_touch, if_neg hbranch, List.getElem?_map, hu]
  simp [applyLastTouch, lastTouchFor, hlast]

/-- Witness for C1_last_touch: catalog rows released on days 0 and 2, a
signup on day 3, window 7: the day-2 show wins. -/
theorem C1_last_touch_witness :
    (assign_last_touch [cA, cB] [uW1] 7)[0]? = some (setAttrib uW1 (some cB.show_id)) :=
  C1_last_touch [cA, cB] [uW1] 7 uW1 cA cB 0 rfl (by decide) (by decide)

/-- Claim C6: window monotonicity.  A user row that comes out of
assign_last_touch with a non-null attributed_show_id under window w keeps
a non-null attribution (possibly a different show) when assign_last_touch
is re-run on the same original ledger with any larger window. -/
theorem C6_window_monotone (content : List ContentRow) (users : List UserRow)
    (w w' : Int) (i : Nat) (row : UserRow) (s : String)
    (hw : w < w')
    (hrow : (assign_last_touch content users w)[i]? = some row)
    (hs : row.attributed_show_id = some s) :
    ∃ row', (assign_last_touch content users w')[i]? = some row'
      ∧ row'.attributed_show_id.isSome = true := by
  have hwle : w ≤ w' := le_of_lt hw
  by_cases hall : users.all (fun v => (userMatches (sortByRelease content) w v).isEmpty) = true
  · rw [assign_last_touch, if_pos hall, List.getElem?_map] at hrow
    rcases hu : users[i]? with _ | u
    · rw [hu] at hrow; simp at hrow
    · rw [hu] at hrow
      simp only [Option.map_some', Option.some.injEq] at hrow
      rw [← hrow] at hs
      simp [setAttrib] at hs
  · have hall' :
        ¬ users.all (fun v => (userMatches (sortByRelease content) w' v).isEmpty) = true := by
      intro h'
      apply hall
      simp only [List.all_eq_true, List.isEmpty_iff] at h' ⊢
      intro v hv
      by_contra hne
      exact userMatches_mono hwle (sortByRelease content) v hne (h' v hv)
    rw [assign_last_touch, if_neg hall, List.getElem?_map] at hrow
    rcases hu : users[i]? with _ | u
    · rw [hu] at hrow; simp at hrow
    · rw [hu] at hrow
      simp only [Option.map_some', Option.some.injEq] at hrow
      rw [assign_last_touch, if_neg hall', List.getElem?_map, hu]
      refine ⟨applyLastTouch (sortByRelease content) w' u, by simp, ?_⟩
      rcases hlast' : lastTouchFor (sortByRelease content) w' u with _ | c
      · have hempty' : userMatches (sortByRelease content) w' u = [] := by
          rw [lastTouchFor, List.getLast?_eq_none_iff] at hlast'
          have hp := List.perm_insertionSort relLE (userMatches (sortByRelease content) w' u)
          rw [hlast'] at hp
          exact (hp.symm).eq_nil
        have hempty : userMatches (sortByRelease content) w u = [] := by
          by_contra hne
          exact userMatches_mono hwle (sortByRelease content) u hne hempty'
        have hlw : lastTouchFor (sortByRelease content) w u = none := by
          rw [lastTouchFor, hempty]
          rfl
        have hrowu : u = row := by
          rw [applyLastTouch, hlw] at hrow
          exact hrow
        rw [applyLastTouch, hlast', hrowu]
        rw [hs]
        rfl
      · rw [applyLastTouch, hlast']
        rfl

/-- Witness for C6_window_monotone: a show on day 0, a signup on day 2,
windows 3 and 5. -/
theorem C6_window_monotone_witness :
    ∃ row', (assign_last_touch [cW6] [uW6] 5)[0]? = some row'
      ∧ row'.attributed_show_id.isSome = true :=
  C6_window_monotone [cW6] [uW6] 3 5 0
    (setAttrib uW6 (some cW6.show_id)) cW6.show_id
    (by decide) (by decide) (by decide)

/-- Claim C3 (counterexample): a show with production cost 0 and one
attributed user of revenue 10 gets roi = +infinity, not a flagged undefined
value; at the genre level the zero aggregate cost yields cac_per_user = 0
(a plain number) and ltv_to_cac = +infinity. -/
theorem C3_counterexample :
    (showRev (compute_ltv [uC3]) [cZero]).map (fun r => r.roi) = [FVal.inf]
    ∧ (genreFin (showRev (compute_ltv [uC3]) [cZero])).map
        (fun g => (g.total_attributed_users, g.total_prod_cost, g.cac_per_user, g.ltv_to_cac))
      = [(1, 0, FVal.num 0, FVal.inf)] := by
  constructor
  · norm_num [showRev, showKeys, showGroup, mkShowRevRow, compute_ltv, mkLtvRow,
      uC3, cZero, dJan3, monthsBetween, optF, fsub, fdiv, idS1,
      List.filterMap_cons, List.filterMap_nil, List.dedup_nil, List.dedup_cons_of_not_mem,
      List.filter_cons, List.filter_nil, List.find?, List.sum_cons, List.sum_nil,
      Function.comp, beq_iff_eq]
  · norm_num [genreFin, genreKeys, genreGroup, mkGenreFinRow, showRev, showKeys,
      showGroup, mkShowRevRow, compute_ltv, mkLtvRow, uC3, cZero, dJan3,
      monthsBetween, optF, fsub, fdiv, idS1,
      List.filterMap_cons, List.filterMap_nil, List.dedup_nil, List.dedup_cons_of_not_mem,
      List.filter_cons, List.filter_nil, List.find?, List.sum_cons, List.sum_nil,
      Function.comp, beq_iff_eq]

/-- Claim C3 (amended): the only guarded denominator is the attributed-user
count (its replace(0, NaN) turns an empty-count division into NaN).  A show
row whose catalog production cost is 0 and whose attributed revenue is
positive gets roi = +infinity, and a genre row with attributed users, zero
aggregate production cost and positive revenue gets cac_per_user = 0 and
ltv_to_cac = +infinity; no exception is raised anywhere (all stages are
total functions). -/
theorem C3_amended (users : List LtvRow) (content : List ContentRow) :
    (∀ r ∈ showRev users content, r.production_cost = some 0 → 0 < r.total_revenue →
        r.roi = FVal.inf)
    ∧ (∀ g ∈ genreFin (showRev users content), g.total_attributed_users ≠ 0 →
        g.total_prod_cost = 0 → 0 < g.total_revenue →
        g.cac_per_user = FVal.num 0 ∧ g.ltv_to_cac = FVal.inf) := by
  constructor
  · intro r hr h0 hpos
    obtain ⟨k, hk, rfl⟩ := List.mem_map.mp hr
    simp only [mkShowRevRow] at h0 hpos ⊢
    rcases hfind : (content.find? (fun c => c.show_id == k)) with _ | c
    · rw [hfind] at h0
      simp at h0
    · rw [hfind] at h0 ⊢
      simp only [Option.map_some'] at h0 ⊢
      have hc0 : c.production_cost = 0 := by simpa using h0
      rw [hc0]
      simp only [optF, fsub]
      rw [sub_zero]
      exact fdiv_num_pos_zero hpos
  · intro g hg hn h0 hpos
    obtain ⟨gname, hgk, rfl⟩ := List.mem_map.mp hg
    simp only [mkGenreFinRow] at hn h0 hpos ⊢
    rw [if_neg hn]
    have hnQ : (((List.map (fun r => r.attributed_users) (genreGroup (showRev users content) gname)).sum : Nat) : Rat) ≠ 0 :=
      Nat.cast_ne_zero.mpr hn
    have hnQpos : (0 : Rat) < (((List.map (fun r => r.attributed_users) (genreGroup (showRev users content) gname)).sum : Nat) : Rat) :=
      Nat.cast_pos.mpr (Nat.pos_of_ne_zero hn)
    rw [h0, fdiv_num_num_of_ne hnQ, fdiv_num_num_of_ne hnQ, zero_div]
    exact ⟨rfl, fdiv_num_pos_zero (div_pos hpos hnQpos)⟩

/-- Witness for C3_amended at the zero-cost fixture: the show row of idS1
is in the table, has cost some 0 and positive revenue, and the theorem
yields roi = +infinity for it. -/
theorem C3_amended_witness :
    (mkShowRevRow (compute_ltv [uC3]) [cZero] idS1).roi = FVal.inf :=
  (C3_amended (compute_ltv [uC3]) [cZero]).1
    (mkShowRevRow (compute_ltv [uC3]) [cZero] idS1)
    (by simp [showRev, showKeys, compute_ltv, mkLtvRow, uC3, idS1])
    (by norm_num [mkShowRevRow, cZero, compute_ltv, mkLtvRow, uC3, idS1,
      List.find?, beq_iff_eq])
    (by norm_num [mkShowRevRow, showGroup, compute_ltv, mkLtvRow, uC3, dJan3,
      monthsBetween, idS1, List.filter_cons, List.filter_nil, List.sum_cons,
      List.sum_nil, beq_iff_eq])

/-- Claim C8 (counterexample): a user attributed to the dangling id idS9
does produce a show_rev row (with production_cost missing and roi NaN),
contradicting the claim that no row is produced without a cost basis; the
dangling row's missing genre keeps it out of the genre table, which is
empty here. -/
theorem C8_counterexample :
    (showRev (compute_ltv [uDang]) [cC8]).map
        (fun r => (r.attributed_show_id, r.production_cost, r.roi))
      = [(idS9, none, FVal.nan)]
    ∧ genreFin (showRev (compute_ltv [uDang]) [cC8]) = [] := by
  constructor
  · decide
  · decide

/-- Claim C8 (amended): a user whose attributed_content_id matches no
catalog row still yields a show_rev row for that id, with title, genre and
production_cost all missing and roi NaN; the missing genre excludes the row
from every genre group, and every stage remains total (the run completes). -/
theorem C8_amended (users : List LtvRow) (content : List ContentRow) (u : LtvRow) (k : String)
    (hu : u ∈ users) (hk : u.attributed_show_id = some k)
    (hmiss : ∀ c ∈ content, c.show_id ≠ k) :
    mkShowRevRow users content k ∈ showRev users content
    ∧ (mkShowRevRow users content k).production_cost = none
    ∧ (mkShowRevRow users content k).genre = none
    ∧ (mkShowRevRow users content k).roi = FVal.nan
    ∧ ∀ g : String, mkShowRevRow users content k ∉ genreGroup (showRev users content) g := by
  have hfind : content.find? (fun c => c.show_id == k) = none := by
    rw [List.find?_eq_none]
    intro c hc
    simpa using hmiss c hc
  have hcost : (mkShowRevRow users content k).production_cost = none := by
    simp [mkShowRevRow, hfind]
  have hgenre : (mkShowRevRow users content k).genre = none := by
    simp [mkShowRevRow, hfind]
  refine ⟨?_, hcost, hgenre, ?_, ?_⟩
  · apply List.mem_map_of_mem
    rw [showKeys, List.mem_dedup, List.mem_filterMap]
    exact ⟨u, hu, hk⟩
  · simp [mkShowRevRow, hfind, optF, fsub, fdiv]
  · intro g hg
    have := (List.mem_filter.mp hg).2
    rw [hgenre] at this
    simp at this

/-- Witness for C8_amended at the dangling fixture. -/
theorem C8_amended_witness :
    mkShowRevRow (compute_ltv [uDang]) [cC8] idS9 ∈ showRev (compute_ltv [uDang]) [cC8]
    ∧ (mkShowRevRow (compute_ltv [uDang]) [cC8] idS9).production_cost = none
    ∧ (mkShowRevRow (compute_ltv [uDang]) [cC8] idS9).genre = none
    ∧ (mkShowRevRow (compute_ltv [uDang]) [cC8] idS9).roi = FVal.nan
    ∧ ∀ g : String,
        mkShowRevRow (compute_ltv [uDang]) [cC8] idS9 ∉ genreGroup (showRev (compute_ltv [uDang]) [cC8]) g :=
  C8_amended (compute_ltv [uDang]) [cC8] (mkLtvRow uDang) idS9
    (by simp [compute_ltv])
    (by simp [mkLtvRow, uDang])
    (by simp [cC8, idS1, idS9])

/-- Claim C5: each sweep point is attribution-from-scratch.  Every output
row of the sweep carries one of the windows 3, 7, 14 paired with one of the
two genres, its ltv_to_cac equals the value obtained by running resolver,
LTV calculator and aggregator on the original unmodified ledger with that
row's single window value, and the rows are ordered by ascending window. -/
theorem C5_sweep (content : List ContentRow) (users : List UserRow) :
    (sensitivity_rows content users).map (fun r => (r.window, r.genre))
      = ([(3, sweepGenres[0]!), (3, sweepGenres[1]!), (7, sweepGenres[0]!), (7, sweepGenres[1]!),
         (14, sweepGenres[0]!), (14, sweepGenres[1]!)] : List (Int × String))
    ∧ (∀ r ∈ sensitivity_rows content users,
        r.ltv_to_cac
          = ltvCacFor
              (genreFin (showRev (compute_ltv (assign_last_touch content users r.window)) content))
              r.genre)
    ∧ List.Sorted (fun a b => a ≤ b)
        ((sensitivity_rows content users).map (fun r => r.window)) := by
  refine ⟨rfl, ?_, ?_⟩
  · intro r hr
    have hrows : sensitivity_rows content users
        = [sweepRow content users 3 (sweepGenres[0]!), sweepRow content users 3 (sweepGenres[1]!),
           sweepRow content users 7 (sweepGenres[0]!), sweepRow content users 7 (sweepGenres[1]!),
           sweepRow content users 14 (sweepGenres[0]!), sweepRow content users 14 (sweepGenres[1]!)] := rfl
    rw [hrows] at hr
    simp only [List.mem_cons, List.not_mem_nil, or_false] at hr
    rcases hr with rfl | rfl | rfl | rfl | rfl | rfl <;> rfl
  · have hmap : (sensitivity_rows content users).map (fun r => r.window)
        = [3, 3, 7, 7, 14, 14] := rfl
    rw [hmap]
    decide

/-- Witness for C5_sweep: on the empty catalog and ledger the first sweep
row is present and its value is the from-scratch pipeline value. -/
theorem C5_sweep_witness :
    sweepRow [] [] 3 (sweepGenres[0]!) ∈ sensitivity_rows [] []
    ∧ (sweepRow [] [] 3 (sweepGenres[0]!)).ltv_to_cac
      = ltvCacFor
          (genreFin (showRev (compute_ltv (assign_last_touch [] [] (sweepRow [] [] 3 (sweepGenres[0]!)).window)) []))
          (sweepRow [] [] 3 (sweepGenres[0]!)).genre :=
  ⟨by decide, (C5_sweep [] []).2.1 (sweepRow [] [] 3 (sweepGenres[0]!)) (by decide)⟩

/-- Claim C9: end-to-end example.  With the one-show catalog (release
2024-01-01, cost 1000, genre Drama), the one-user ledger (signup and last
active 2024-01-03, revenue 10, no attribution) and window 7, the resolver
attributes the user to idS1, the LTV calculator yields lifetime_months 1
and ltv 10, and the show aggregator yields one row with 1 attributed user,
total revenue 10, production cost 1000 and roi -99/100. -/
theorem C9_end_to_end :
    assign_last_touch [s1C9] [u1C9] 7 = [setAttrib u1C9 (some idS1)]
    ∧ (compute_ltv (assign_last_touch [s1C9] [u1C9] 7)).map
        (fun r => (r.user_id, r.attributed_show_id, r.lifetime_months, r.ltv))
      = [(u1C9.user_id, some idS1, 1, 10)]
    ∧ showRev (compute_ltv (assign_last_touch [s1C9] [u1C9] 7)) [s1C9]
      = [{ attributed_show_id := idS1, attributed_users := 1, total_revenue := 10,
           title := some s1C9.title, genre := some s1C9.genre,
           production_cost := some 1000, roi := FVal.num (-99/100) }] := by
  have h1 : assign_last_touch [s1C9] [u1C9] 7 = [setAttrib u1C9 (some idS1)] := by decide
  refine ⟨h1, ?_, ?_⟩
  · rw [h1]
    norm_num [compute_ltv, mkLtvRow, setAttrib, u1C9, dJan3, monthsBetween, idS1]
  · rw [h1]
    norm_num [showRev, showKeys, showGroup, mkShowRevRow, compute_ltv, mkLtvRow, setAttrib,
      u1C9, s1C9, dJan3, monthsBetween, idS1, optF, fsub, fdiv,
      List.filterMap_cons, List.filterMap_nil, List.dedup_nil, List.dedup_cons_of_not_mem,
      List.filter_cons, List.filter_nil, List.find?, List.sum_cons, List.sum_nil,
      Function.comp, beq_iff_eq]
